import Mathlib

/-!
Verification development for the `genai-fundamentals` repository
(`src/genai-fundamentals/vector_cypher_rag.py`).

The script opens a Neo4j driver from environment variables, builds a
`VectorCypherRetriever` over a fixed Cypher enrichment query, runs one
RAG search, prints the answer and the retrieved context, and closes the
driver.  We shallowly embed:

* the property graph the Cypher query runs over (`Graph`);
* the enrichment query `retrieval_query` (lines 23-32 of the script) as a
  function from a candidate `(node, score)` pair to an optional
  `RetrievedRecord` row, plus the final `ORDER BY userRating DESC`;
* the vector-search stage (an external black box, modelled from the spec)
  bounded to `top_k` candidates;
* the straight-line statement sequence of the script, to settle claims
  about connection release and output order;
* the startup configuration reading (lines 12-18).

Floats in the source (ratings, similarity scores) are modelled as `ℚ`.
-/

/-- Relationship types appearing in `retrieval_query`. -/
inductive RelType where
  | RATED
  | IN_GENRE
  | ACTED_IN
  | DIRECTED
deriving DecidableEq, Repr

/-- A relationship of the property graph.  `rating` is the `rating`
property, meaningful on `RATED` relationships (the movies dataset stores a
numeric rating on every `RATED` relationship). -/
structure Edge where
  src : Nat
  rel : RelType
  dst : Nat
  rating : ℚ
deriving DecidableEq, Repr

/-- The property graph: node identifiers, relationships, and the node
properties read by `retrieval_query` (`title`, `plot`, `name`). -/
structure Graph where
  nodes : List Nat
  edges : List Edge
  title : Nat → Option String
  plot : Nat → Option String
  name : Nat → Option String

/-- One row of the enrichment query output: the `RETURN` clause of
`retrieval_query` binds `title`, `plot`, `similarityScore`, `genres`,
`actors`, `directors` and `userRating`. -/
structure RetrievedRecord where
  title : Option String
  plot : Option String
  similarityScore : ℚ
  genres : List String
  actors : List String
  directors : List String
  userRating : Option ℚ
deriving DecidableEq, Repr

/-- The fixed Cypher enrichment query of the script (lines 23-32),
kept verbatim as configuration data. -/
def retrieval_query : String :=
  "\nMATCH (node)<-[r:RATED]-()\nRETURN \n  node.title AS title, node.plot AS plot, score AS similarityScore, \n  collect \x7b MATCH (node)-[:IN_GENRE]->(g) RETURN g.name \x7d as genres, \n  collect \x7b MATCH (node)<-[:ACTED_IN]->(a) RETURN a.name \x7d as actors, \n  collect \x7b MATCH  (node)<-[:DIRECTED]->(d) RETURN d.name \x7d as directors,\n  avg(r.rating) as userRating\nORDER BY userRating DESC\n"

/-- `MATCH (node)<-[r:RATED]-()`: the `rating` values of all incoming
`RATED` relationships of `n`. -/
def ratingsOf (g : Graph) (n : Nat) : List ℚ :=
  (g.edges.filter (fun e => e.rel = RelType.RATED ∧ e.dst = n)).map Edge.rating

/-- `collect { MATCH (node)-[:IN_GENRE]->(g) RETURN g.name }`: names of
nodes reached by an outgoing `IN_GENRE` relationship (null names are
dropped, as Cypher aggregation skips nulls). -/
def genresOf (g : Graph) (n : Nat) : List String :=
  (g.edges.filter (fun e => e.rel = RelType.IN_GENRE ∧ e.src = n)).filterMap
    (fun e => g.name e.dst)

/-- `collect { MATCH (node)<-[:ACTED_IN]->(a) RETURN a.name }`: the pattern
carries an arrowhead on both ends, which Cypher treats as matching the
relationship in either direction, so we collect the name of the other
endpoint of any `ACTED_IN` relationship touching `n`. -/
def actorsOf (g : Graph) (n : Nat) : List String :=
  g.edges.filterMap (fun e =>
    if e.rel = RelType.ACTED_IN then
      if e.dst = n then g.name e.src
      else if e.src = n then g.name e.dst
      else none
    else none)

/-- `collect { MATCH (node)<-[:DIRECTED]->(d) RETURN d.name }`: same
double-arrowhead pattern as for actors, over `DIRECTED` relationships. -/
def directorsOf (g : Graph) (n : Nat) : List String :=
  g.edges.filterMap (fun e =>
    if e.rel = RelType.DIRECTED then
      if e.dst = n then g.name e.src
      else if e.src = n then g.name e.dst
      else none
    else none)

/-- The enrichment query evaluated on one vector-search candidate
`(node, score)`.  The leading `MATCH (node)<-[r:RATED]-()` produces no row
when `node` has no incoming `RATED` relationship; otherwise the implicit
grouping yields one row for the node, with `avg(r.rating)` as
`userRating`. -/
def enrichRow (g : Graph) (c : Nat × ℚ) : Option RetrievedRecord :=
  let rs := ratingsOf g c.1
  if rs.isEmpty then none
  else some
    { title := g.title c.1
      plot := g.plot c.1
      similarityScore := c.2
      genres := genresOf g c.1
      actors := actorsOf g c.1
      directors := directorsOf g c.1
      userRating := some (rs.sum / (rs.length : ℚ)) }

/-- Ordering on candidates by similarity score, descending. -/
def scoreGE (a b : Nat × ℚ) : Prop := b.2 ≤ a.2

instance : DecidableRel scoreGE := fun a b =>
  inferInstanceAs (Decidable (b.2 ≤ a.2))

instance : IsTotal (Nat × ℚ) scoreGE := ⟨fun a b => le_total b.2 a.2⟩

instance : IsTrans (Nat × ℚ) scoreGE :=
  ⟨fun _ _ _ h1 h2 => le_trans h2 h1⟩

/-- Modelled from the spec: the nearest-neighbour similarity search of the
`moviePlots` vector index (section 4.3, step 2).  The embedder and the
index are external black boxes, abstracted as a similarity oracle
`simq : Nat → ℚ`; the search ranks the indexed nodes by similarity
descending and is bounded to `top_k` candidates, producing
`(node, similarityScore)` pairs. -/
def vectorSearch (g : Graph) (simq : Nat → ℚ) (top_k : Nat) : List (Nat × ℚ) :=
  (List.insertionSort scoreGE (g.nodes.map (fun n => (n, simq n)))).take top_k

/-- Sort key of the final `ORDER BY userRating DESC` (every produced row
has a non-null `userRating`, so the default for `none` is immaterial). -/
def ratingKey (r : RetrievedRecord) : ℚ := r.userRating.getD 0

/-- Ordering on rows by `userRating`, descending. -/
def ratingGE (a b : RetrievedRecord) : Prop := ratingKey b ≤ ratingKey a

instance : DecidableRel ratingGE := fun a b =>
  inferInstanceAs (Decidable (ratingKey b ≤ ratingKey a))

instance : IsTotal RetrievedRecord ratingGE :=
  ⟨fun a b => le_total (ratingKey b) (ratingKey a)⟩

instance : IsTrans RetrievedRecord ratingGE :=
  ⟨fun _ _ _ h1 h2 => le_trans h2 h1⟩

/-- `retrieve`: the `VectorCypherRetriever` search (lines 35-40 and 51-55
of the script).  The query text is embedded (here: fed to the similarity
oracle `sim`), the vector index returns at most `top_k` candidates, each
candidate is enriched by `retrieval_query`, and the resulting rows are
sorted by `userRating` descending per the query's `ORDER BY`. -/
def retrieve (g : Graph) (sim : String → Nat → ℚ) (query_text : String)
    (top_k : Nat) : List RetrievedRecord :=
  List.insertionSort ratingGE
    ((vectorSearch g (sim query_text) top_k).filterMap (enrichRow g))

/-! ## The script's statement sequence

The top-level script is a straight line of statements; exceptions from
any statement propagate uncaught (there is no `try`/`finally` or `with`
block), aborting the run at that statement. -/

/-- The top-level statements of `vector_cypher_rag.py`, in program order:
driver construction (line 12), `rag.search` (line 51, covering retrieval
and generation), the two prints (lines 57-58), and `driver.close()`
(line 61). -/
inductive Stmt where
  | openDriver
  | ragSearch
  | printAnswer
  | printContext
  | closeDriver
deriving DecidableEq, Repr

/-- The script's statements in source order. -/
def script : List Stmt :=
  [Stmt.openDriver, Stmt.ragSearch, Stmt.printAnswer, Stmt.printContext,
    Stmt.closeDriver]

/-- The longest prefix of `l` up to and including the first occurrence of
`s`: the statements that begin executing when `s` is the first statement
to raise. -/
def upToStmt (s : Stmt) : List Stmt → List Stmt
  | [] => []
  | x :: xs => if x = s then [x] else x :: upToStmt s xs

/-- The statements that begin executing in a run of the script.  `none`
is the error-free run; `some s` is the run in which statement `s` is the
first to raise an exception (which then propagates uncaught, so nothing
after `s` runs). -/
def executed : Option Stmt → List Stmt
  | none => script
  | some s => upToStmt s script

/-- Whether a statement uses the database connection. -/
def usesConnection : Stmt → Bool
  | Stmt.openDriver => true
  | Stmt.ragSearch => true
  | Stmt.printAnswer => false
  | Stmt.printContext => false
  | Stmt.closeDriver => true

/-! ## Startup configuration (lines 12-18) -/

/-- Error kinds of the spec's error-handling design (section 7). -/
inductive ScriptError where
  | configurationError
  | connectionError
  | externalServiceError
deriving DecidableEq, Repr

/-- The values handed to `GraphDatabase.driver`: the three environment
lookups, each possibly absent. -/
structure DriverConfig where
  uri : Option String
  username : Option String
  password : Option String
deriving DecidableEq, Repr

/-- The configuration the script builds at startup: `os.getenv` on the
three variable names, with no presence check anywhere in the script. -/
def configOf (env : String → Option String) : DriverConfig :=
  { uri := env "NEO4J_URI"
    username := env "NEO4J_USERNAME"
    password := env "NEO4J_PASSWORD" }

/-- Startup of the script (lines 1-18): load the environment and construct
the driver from the three lookups.  The script performs no validation, so
startup never raises a `configurationError`; the driver constructor does
not connect. -/
def startup (env : String → Option String) : Except ScriptError DriverConfig :=
  Except.ok (configOf env)

/-- Modelled from the spec: first use of the Connection.  Section 4.1 —
`open(uri, username, password)` fails with ConnectionError when the target
is unreachable or credentials are rejected; the Neo4j driver itself is not
under src/, and absent credentials are rejected at the first connection.
`reachable` abstracts the external database's availability for well-formed
credentials. -/
def firstUse (reachable : DriverConfig → Bool) (c : DriverConfig) :
    Except ScriptError Unit :=
  match c.uri, c.username, c.password with
  | some _, some _, some _ =>
      if reachable c then Except.ok () else Except.error ScriptError.connectionError
  | _, _, _ => Except.error ScriptError.connectionError

/-! ## The RAG orchestrator (spec-modelled) and the script's output -/

/-- Modelled from the spec: serialization of the retrieved records into a
textual context block (section 4.5: "serialize these records into a
bounded-size textual context block"); the `GraphRAG` pipeline code is not
under src/. -/
def serializeRecords (records : List RetrievedRecord) : String :=
  String.intercalate "\n"
    (records.map (fun r => (r.title.getD "") ++ ": " ++ (r.plot.getD "")))

/-- Modelled from the spec: prompt construction combining the original
query and the context block (section 4.5). -/
def buildPrompt (query_text context : String) : String :=
  "Question: " ++ query_text ++ "\nContext:\n" ++ context

/-- The Answer of the spec's data model: generated text plus the retrieved
records used as justification. -/
structure RagAnswer where
  text : String
  context : List RetrievedRecord
deriving DecidableEq, Repr

/-- Modelled from the spec: the RAG Orchestrator `answer` (section 4.5);
the `GraphRAG.search` implementation is not under src/.  It invokes the
Retriever, serializes the records into a context block — an explicit
"no supporting evidence found" context when the retrieval is empty —
invokes the Generator `gen` on the combined prompt, and returns the text
together with the records iff `includeContext`.  No error kind is raised
for an empty retrieval. -/
def answer (gen : String → String) (g : Graph) (sim : String → Nat → ℚ)
    (query_text : String) (top_k : Nat) (includeContext : Bool) :
    Except ScriptError RagAnswer :=
  let records := retrieve g sim query_text top_k
  let context :=
    if records.isEmpty then "no supporting evidence found"
    else serializeRecords records
  Except.ok
    { text := gen (buildPrompt query_text context)
      context := if includeContext then records else [] }

/-- The lines a statement writes to standard output, given the response:
`print(response.answer)` then `print("CONTEXT:", response.retriever_result.items)`
(lines 57-58).  `serialize` abstracts Python's repr of the items list. -/
def stmtOutput (serialize : List RetrievedRecord → String) (resp : RagAnswer) :
    Stmt → List String
  | Stmt.printAnswer => [resp.text]
  | Stmt.printContext => ["CONTEXT: " ++ serialize resp.context]
  | _ => []

/-- Standard output of an error-free run of the script, in order. -/
def programStdout (serialize : List RetrievedRecord → String)
    (resp : RagAnswer) : List String :=
  (executed none).flatMap (stmtOutput serialize resp)

/-! ## The query text sent to the database -/

/-- Modelled from the spec: the search clause the retriever prepends for
the fixed `moviePlots` vector index (section 6: the index is referenced by
a fixed name; `VectorCypherRetriever` internals are not under src/). -/
def vectorIndexClause : String :=
  "CALL db.index.vector.queryNodes('moviePlots', $top_k, $query_vector) YIELD node, score"

/-- The Cypher text sent to the database for a search with the given user
query text: the fixed index search clause followed by the fixed
`retrieval_query`.  The user query text is never interpolated; it only
determines the `$query_vector` parameter via the embedder. -/
def sentCypher (query_text : String) : String :=
  vectorIndexClause ++ retrieval_query

/-! ## Concrete instances used in counterexamples and witnesses -/

/-- A similarity oracle giving node 1 a higher score than node 2. -/
def simTwo : String → Nat → ℚ := fun _ n => if n = 1 then 1 else 0

/-- A two-node graph in which the semantically closer node (node 1,
similarity 1) has the lower average rating (2 versus 5 for node 2). -/
def twoMovieGraph : Graph :=
  { nodes := [1, 2]
    edges :=
      [ { src := 10, rel := RelType.RATED, dst := 1, rating := 2 },
        { src := 10, rel := RelType.RATED, dst := 2, rating := 5 } ]
    title := fun n => if n = 1 then some "A" else if n = 2 then some "B" else none
    plot := fun _ => none
    name := fun _ => none }

/-- Ordering on rows by `similarityScore`, descending — used only to state
that the result is NOT ordered this way. -/
def simScoreGE (a b : RetrievedRecord) : Prop :=
  b.similarityScore ≤ a.similarityScore

instance : DecidableRel simScoreGE := fun a b =>
  inferInstanceAs (Decidable (b.similarityScore ≤ a.similarityScore))

/-! ## Helper lemmas -/

/-- Every record of a `retrieve` result comes from some vector-search
candidate via `enrichRow`. -/
theorem retrieve_mem_provenance {g : Graph} {sim : String → Nat → ℚ}
    {q : String} {k : Nat} {rec : RetrievedRecord}
    (h : rec ∈ retrieve g sim q k) :
    ∃ c ∈ vectorSearch g (sim q) k, enrichRow g c = some rec := by
  have h2 : rec ∈ (vectorSearch g (sim q) k).filterMap (enrichRow g) := by
    simpa [retrieve] using h
  simpa using List.mem_filterMap.mp h2

/-- Shape of an `enrichRow` success: the node has at least one rating and
every field is the corresponding collection for that node. -/
theorem enrichRow_eq_some {g : Graph} {c : Nat × ℚ} {rec : RetrievedRecord}
    (h : enrichRow g c = some rec) :
    ratingsOf g c.1 ≠ [] ∧
      rec = { title := g.title c.1
              plot := g.plot c.1
              similarityScore := c.2
              genres := genresOf g c.1
              actors := actorsOf g c.1
              directors := directorsOf g c.1
              userRating :=
                some ((ratingsOf g c.1).sum / ((ratingsOf g c.1).length : ℚ)) } := by
  by_cases he : (ratingsOf g c.1).isEmpty
  · simp [enrichRow, he] at h
  · refine ⟨by simpa [List.isEmpty_iff] using he, ?_⟩
    simp only [enrichRow, he, if_neg, Bool.false_eq_true, not_false_iff,
      ite_false, Option.some.injEq] at h
    exact h.symm

/-! ## Further concrete instances for witnesses and counterexamples -/

/-- A one-movie graph: node 1 (title `W`, plot `P`) with one rating of 4,
one genre (`Action`), one actor (`Alice`, via an `ACTED_IN` relationship
into the movie) and one director (`Dana`). -/
def witnessGraph : Graph :=
  { nodes := [1]
    edges :=
      [ { src := 10, rel := RelType.RATED, dst := 1, rating := 4 },
        { src := 1, rel := RelType.IN_GENRE, dst := 20, rating := 0 },
        { src := 30, rel := RelType.ACTED_IN, dst := 1, rating := 0 },
        { src := 40, rel := RelType.DIRECTED, dst := 1, rating := 0 } ]
    title := fun n => if n = 1 then some "W" else none
    plot := fun n => if n = 1 then some "P" else none
    name := fun n =>
      if n = 20 then some "Action"
      else if n = 30 then some "Alice"
      else if n = 40 then some "Dana"
      else none }

/-- The single record `retrieve` produces on `witnessGraph`. -/
def witnessRecord : RetrievedRecord :=
  { title := some "W"
    plot := some "P"
    similarityScore := 1
    genres := ["Action"]
    actors := ["Alice"]
    directors := ["Dana"]
    userRating := some 4 }

/-- Evaluation of the retriever on the one-movie witness graph. -/
theorem retrieve_witnessGraph_eq :
    retrieve witnessGraph simTwo "q" 5 = [witnessRecord] := by
  norm_num +decide [retrieve, vectorSearch, witnessGraph, simTwo, enrichRow,
    ratingsOf, genresOf, actorsOf, directorsOf, List.insertionSort,
    List.orderedInsert, ratingGE, scoreGE, ratingKey, witnessRecord,
    List.filter, List.filterMap]

/-- A graph whose only indexed node has no incoming `RATED`
relationship. -/
def noRatingsGraph : Graph :=
  { nodes := [1]
    edges := [ { src := 1, rel := RelType.IN_GENRE, dst := 20, rating := 0 } ]
    title := fun n => if n = 1 then some "U" else none
    plot := fun _ => none
    name := fun n => if n = 20 then some "Drama" else none }

/-- A graph with no nodes at all. -/
def noNodesGraph : Graph :=
  { nodes := []
    edges := []
    title := fun _ => none
    plot := fun _ => none
    name := fun _ => none }

/-- A concrete generator used in witnesses. -/
def genDemo : String → String := fun s => "ANSWER: " ++ s

/-- An environment in which `NEO4J_URI` and `NEO4J_USERNAME` are set but
`NEO4J_PASSWORD` is absent. -/
def envMissingPassword : String → Option String := fun k =>
  if k = "NEO4J_PASSWORD" then none else some "value"

/-! ## Claim theorems -/

/-- C1: For every query string and every `top_k = k`, `retrieve` returns
at most `k` records, and the returned sequence is ordered by
non-increasing `userRating`; moreover (on a concrete run) the sequence is
not ordered by `similarityScore`, so the two ranking criteria really are
decoupled. -/
theorem retrieve_at_most_topk_and_rating_sorted :
    (∀ (g : Graph) (sim : String → Nat → ℚ) (q : String) (k : Nat),
        (retrieve g sim q k).length ≤ k ∧
          List.Sorted ratingGE (retrieve g sim q k)) ∧
      ¬ List.Sorted simScoreGE (retrieve twoMovieGraph simTwo "q" 2) := by
  constructor
  · intro g sim q k
    constructor
    · calc (retrieve g sim q k).length
          = ((vectorSearch g (sim q) k).filterMap (enrichRow g)).length := by
            simp [retrieve]
        _ ≤ (vectorSearch g (sim q) k).length := List.length_filterMap_le _ _
        _ ≤ k := by simp [vectorSearch]
    · exact List.sorted_insertionSort ratingGE _
  · have h : retrieve twoMovieGraph simTwo "q" 2 =
        [{ title := some "B", plot := none, similarityScore := 0, genres := [],
           actors := [], directors := [], userRating := some 5 },
         { title := some "A", plot := none, similarityScore := 1, genres := [],
           actors := [], directors := [], userRating := some 2 }] := by
      norm_num +decide [retrieve, vectorSearch, twoMovieGraph, simTwo,
        enrichRow, ratingsOf, genresOf, actorsOf, directorsOf,
        List.insertionSort, List.orderedInsert, ratingGE, scoreGE, ratingKey,
        List.filter, List.filterMap]
    rw [h]
    intro hs
    rw [List.sorted_cons] at hs
    have h2 := hs.1 _ (List.mem_singleton_self _)
    simp only [simScoreGE] at h2
    norm_num at h2

/-- C6: `retrieve` with `top_k = 0` returns the empty sequence for every
graph, similarity oracle and query string. -/
theorem retrieve_topk_zero_empty :
    ∀ (g : Graph) (sim : String → Nat → ℚ) (q : String),
      retrieve g sim q 0 = [] := by
  intro g sim q
  simp [retrieve, vectorSearch]

/-- C7: the standard output of an error-free run is the generated answer
text first, then the `CONTEXT:` line with the retrieved-context list, and
nothing else. -/
theorem stdout_answer_then_context :
    ∀ (serialize : List RetrievedRecord → String) (resp : RagAnswer),
      programStdout serialize resp =
        [resp.text, "CONTEXT: " ++ serialize resp.context] := by
  intro serialize resp
  rfl

/-- C8: the graph traversal query text sent to the database is a fixed
constant — it is identical for any two user query texts, so no user input
is interpolated into it. -/
theorem sentCypher_independent_of_query :
    ∀ q1 q2 : String, sentCypher q1 = sentCypher q2 := by
  intro q1 q2
  rfl

/-- C2 counterexample: in the run where `rag.search` raises (retrieval or
generation failure), `driver.close()` is never reached — the claim that
the Connection is released on every exit path is false for this script. -/
theorem close_not_reached_when_search_raises :
    Stmt.closeDriver ∉ executed (some Stmt.ragSearch) := by
  decide

/-- C2 (amended): only on the error-free run is the Connection released —
there `driver.close()` is the final statement, executed exactly once, and
no statement using the connection follows it; if any earlier statement
raises, `driver.close()` is not reached. -/
theorem close_only_on_clean_exit :
    (executed none).getLast? = some Stmt.closeDriver ∧
      (executed none).count Stmt.closeDriver = 1 ∧
      ((executed none).dropWhile (fun s => s != Stmt.closeDriver)).tail.all
        (fun s => !usesConnection s) = true ∧
      Stmt.closeDriver ∉ executed (some Stmt.openDriver) ∧
      Stmt.closeDriver ∉ executed (some Stmt.ragSearch) ∧
      Stmt.closeDriver ∉ executed (some Stmt.printAnswer) ∧
      Stmt.closeDriver ∉ executed (some Stmt.printContext) := by
  decide

/-- Helper: whenever the password (or any credential) is absent from the
configuration, the connection fails at its first use. -/
theorem firstUse_password_none (reachable : DriverConfig → Bool)
    (c : DriverConfig) (h : c.password = none) :
    firstUse reachable c = Except.error ScriptError.connectionError := by
  rcases c with ⟨u, un, p⟩
  cases u <;> cases un <;> simp_all [firstUse]

/-- C3 counterexample: with `NEO4J_URI` and `NEO4J_USERNAME` set but
`NEO4J_PASSWORD` absent, startup succeeds (no `ConfigurationError` — the
script performs no validation) and the failure only surfaces at the first
use of the connection. -/
theorem startup_succeeds_despite_missing_password :
    envMissingPassword "NEO4J_PASSWORD" = none ∧
      startup envMissingPassword = Except.ok (configOf envMissingPassword) ∧
      firstUse (fun _ => true) (configOf envMissingPassword) =
        Except.error ScriptError.connectionError := by
  refine ⟨rfl, rfl, ?_⟩
  exact firstUse_password_none _ _ rfl

/-- C3 (amended): the script performs no startup validation of the three
connection parameters — startup always succeeds, passing the possibly
absent values through to the driver — and a missing password surfaces only
at the first use of the connection, as a connection error. -/
theorem startup_passes_config_unchecked :
    ∀ env : String → Option String,
      startup env = Except.ok (configOf env) ∧
        ∀ reachable : DriverConfig → Bool,
          (configOf env).password = none →
            firstUse reachable (configOf env) =
              Except.error ScriptError.connectionError := by
  intro env
  exact ⟨rfl, fun reachable h => firstUse_password_none reachable _ h⟩

/-- C3 witness: the amended theorem applied to the concrete environment
with the password absent. -/
theorem startup_passes_config_unchecked_witness :
    startup envMissingPassword = Except.ok (configOf envMissingPassword) ∧
      firstUse (fun _ => true) (configOf envMissingPassword) =
        Except.error ScriptError.connectionError :=
  ⟨(startup_passes_config_unchecked envMissingPassword).1,
    (startup_passes_config_unchecked envMissingPassword).2 (fun _ => true) rfl⟩

/-- C4: when retrieval yields the empty sequence, the orchestrator raises
no error: the Generator is still invoked on the prompt built from the
explicit "no supporting evidence found" context, and a non-error Answer
is returned. -/
theorem answer_empty_retrieval_ok :
    ∀ (gen : String → String) (g : Graph) (sim : String → Nat → ℚ)
      (q : String) (k : Nat) (includeContext : Bool),
      retrieve g sim q k = [] →
        answer gen g sim q k includeContext =
          Except.ok
            { text := gen (buildPrompt q "no supporting evidence found")
              context := [] } := by
  intro gen g sim q k includeContext h
  cases includeContext <;> simp [answer, h]

/-- C4 witness: the empty-graph retrieval is empty and the orchestrator
returns the non-error Answer built from the "no supporting evidence found"
context. -/
theorem answer_empty_retrieval_ok_witness :
    answer genDemo noNodesGraph simTwo "any query" 5 true =
      Except.ok
        { text := genDemo (buildPrompt "any query" "no supporting evidence found")
          context := [] } :=
  answer_empty_retrieval_ok genDemo noNodesGraph simTwo "any query" 5 true rfl

/-- C5: every record produced by `retrieve` carries `genres` and `actors`
fields that are exactly the (possibly empty) collected name sequences of
its source node — the fields are lists, never absent. -/
theorem retrieved_genres_actors_are_lists :
    ∀ (g : Graph) (sim : String → Nat → ℚ) (q : String) (k : Nat)
      (rec : RetrievedRecord),
      rec ∈ retrieve g sim q k →
        ∃ n : Nat, rec.genres = genresOf g n ∧ rec.actors = actorsOf g n := by
  intro g sim q k rec h
  obtain ⟨c, _, he⟩ := retrieve_mem_provenance h
  obtain ⟨_, hrec⟩ := enrichRow_eq_some he
  exact ⟨c.1, by rw [hrec], by rw [hrec]⟩

/-- C5 witness: the theorem applied to the record retrieved from the
one-movie witness graph. -/
theorem retrieved_genres_actors_are_lists_witness :
    ∃ n : Nat,
      witnessRecord.genres = genresOf witnessGraph n ∧
        witnessRecord.actors = actorsOf witnessGraph n :=
  retrieved_genres_actors_are_lists witnessGraph simTwo "q" 5 witnessRecord
    (by rw [retrieve_witnessGraph_eq]; exact List.mem_singleton_self _)

/-- C9: every record produced by `retrieve` comes from a node with at
least one incoming `RATED` relationship, and its `userRating` is the
(present, non-null) mean of that node's ratings; moreover a graph whose
only indexed node has zero ratings yields no record at all. -/
theorem retrieved_records_have_rating :
    (∀ (g : Graph) (sim : String → Nat → ℚ) (q : String) (k : Nat)
        (rec : RetrievedRecord),
        rec ∈ retrieve g sim q k →
          ∃ n : Nat, ratingsOf g n ≠ [] ∧
            rec.userRating =
              some ((ratingsOf g n).sum / ((ratingsOf g n).length : ℚ))) ∧
      retrieve noRatingsGraph simTwo "q" 5 = [] := by
  constructor
  · intro g sim q k rec h
    obtain ⟨c, _, he⟩ := retrieve_mem_provenance h
    obtain ⟨hne, hrec⟩ := enrichRow_eq_some he
    exact ⟨c.1, hne, by rw [hrec]⟩
  · norm_num +decide [retrieve, vectorSearch, noRatingsGraph, simTwo,
      enrichRow, ratingsOf, List.insertionSort, List.orderedInsert,
      List.filter, List.filterMap]

/-- C9 witness: the theorem applied to the record retrieved from the
one-movie witness graph, whose node has one rating. -/
theorem retrieved_records_have_rating_witness :
    ∃ n : Nat, ratingsOf witnessGraph n ≠ [] ∧
      witnessRecord.userRating =
        some ((ratingsOf witnessGraph n).sum /
          ((ratingsOf witnessGraph n).length : ℚ)) :=
  retrieved_records_have_rating.1 witnessGraph simTwo "q" 5 witnessRecord
    (by rw [retrieve_witnessGraph_eq]; exact List.mem_singleton_self _)

/-- Field names bound by the `RETURN` clause of the script's
`retrieval_query`. -/
def codeRecordFieldNames : List String :=
  ["title", "plot", "similarityScore", "genres", "actors", "directors",
    "userRating"]

/-- Modelled from the spec: the field names of the spec's RetrievedRecord
data model (section 3), which has no `directors` field. -/
def specRecordFieldNames : List String :=
  ["title", "plot", "similarityScore", "genres", "actors", "userRating"]

/-- C10: every record produced by `retrieve` carries a `directors` field —
the collected names of `DIRECTED`-related nodes of its source node — and
`directors` is a field of the code's record but not of the spec's
RetrievedRecord data model. -/
theorem retrieved_records_have_directors :
    (∀ (g : Graph) (sim : String → Nat → ℚ) (q : String) (k : Nat)
        (rec : RetrievedRecord),
        rec ∈ retrieve g sim q k →
          ∃ n : Nat, rec.directors = directorsOf g n) ∧
      "directors" ∈ codeRecordFieldNames ∧
      "directors" ∉ specRecordFieldNames := by
  refine ⟨?_, by decide, by decide⟩
  intro g sim q k rec h
  obtain ⟨c, _, he⟩ := retrieve_mem_provenance h
  obtain ⟨_, hrec⟩ := enrichRow_eq_some he
  exact ⟨c.1, by rw [hrec]⟩

/-- C10 witness: the theorem applied to the record retrieved from the
one-movie witness graph, whose `directors` field is the collected name of
its one `DIRECTED`-related node. -/
theorem retrieved_records_have_directors_witness :
    ∃ n : Nat, witnessRecord.directors = directorsOf witnessGraph n :=
  retrieved_records_have_directors.1 witnessGraph simTwo "q" 5 witnessRecord
    (by rw [retrieve_witnessGraph_eq]; exact List.mem_singleton_self _)
